import Mathlib

/-!
# Verification of the personal finance tracker core

Shallow embedding of the single Python source file
(class `FinancialRecord`, class `FinanceTracker`) and proofs of the
specification claims about it.

Modelling conventions:
* Python `datetime.date` is a `Date` structure of numerals with the
  validity predicate `datetime.date` enforces (year 1..9999, real
  calendar day); `date.isoformat` / `date.fromisoformat` are embedded
  over character lists.
* Python `float` values are IEEE-754 binary64 values represented
  exactly as rationals; each arithmetic step rounds to 53 significant
  bits with round-to-nearest, ties-to-even (`roundRat`).  The model
  uses an unbounded exponent (no overflow/underflow/subnormal band),
  which is exact for the currency-sized magnitudes the program works
  with.
* The ledger-level claims quantify over records with finite amounts;
  the amount prompt of the interactive flow is modelled over the full
  domain of `float(input())` (`PyFloat`: finite values, infinities,
  NaN), because its `amount <= 0` acceptance test does not reject NaN.
* Python's dynamically typed dicts are embedded as `RecordDict`
  (optional JSON values for the five keys the program reads/writes);
  `from_dict` builds a `DynRecord` whose non-date fields keep whatever
  JSON value was present, because the Python constructor stores them
  without any type check.
* Console printing is not modelled; where a method's only interesting
  output is printed (deleted record, save error message) the embedding
  returns that outcome as a value.
-/

/-! ## Dates (`datetime.date`) -/

structure Date where
  year : Nat
  month : Nat
  day : Nat
deriving DecidableEq

def isLeap (y : Nat) : Bool :=
  y % 4 == 0 && (y % 100 != 0 || y % 400 == 0)

def daysInMonth (y m : Nat) : Nat :=
  if m = 2 then (if isLeap y then 29 else 28)
  else if m = 4 ∨ m = 6 ∨ m = 9 ∨ m = 11 then 30
  else 31

/-- The invariant `datetime.date` enforces on construction. -/
def Date.Valid (d : Date) : Prop :=
  1 ≤ d.year ∧ d.year ≤ 9999 ∧ 1 ≤ d.month ∧ d.month ≤ 12 ∧
    1 ≤ d.day ∧ d.day ≤ daysInMonth d.year d.month

instance (d : Date) : Decidable d.Valid := by
  unfold Date.Valid; infer_instance

def digitChar : Nat → Char
  | 0 => '0' | 1 => '1' | 2 => '2' | 3 => '3' | 4 => '4'
  | 5 => '5' | 6 => '6' | 7 => '7' | 8 => '8' | _ => '9'

def parseDigit (c : Char) : Option Nat :=
  if c = '0' then some 0 else if c = '1' then some 1
  else if c = '2' then some 2 else if c = '3' then some 3
  else if c = '4' then some 4 else if c = '5' then some 5
  else if c = '6' then some 6 else if c = '7' then some 7
  else if c = '8' then some 8 else if c = '9' then some 9
  else none

def pad2 (n : Nat) : List Char :=
  [digitChar (n / 10 % 10), digitChar (n % 10)]

def pad4 (n : Nat) : List Char :=
  [digitChar (n / 1000 % 10), digitChar (n / 100 % 10),
   digitChar (n / 10 % 10), digitChar (n % 10)]

/-- `date.isoformat()`: the `YYYY-MM-DD` rendering of a date. -/
def Date.isoformat (d : Date) : String :=
  String.mk (pad4 d.year ++ '-' :: (pad2 d.month ++ '-' :: pad2 d.day))

/-- `date.fromisoformat` on the `YYYY-MM-DD` form: ten characters,
dashes in positions 5 and 8, all else digits, and the resulting triple
must be a real calendar date. -/
def fromisoChars : List Char → Option Date
  | [y1, y2, y3, y4, h1, m1, m2, h2, d1, d2] =>
    if h1 = '-' ∧ h2 = '-' then
      match parseDigit y1, parseDigit y2, parseDigit y3, parseDigit y4,
            parseDigit m1, parseDigit m2, parseDigit d1, parseDigit d2 with
      | some a, some b, some c, some e, some f, some g, some i, some j =>
        let dt : Date := ⟨a * 1000 + b * 100 + c * 10 + e, f * 10 + g, i * 10 + j⟩
        if dt.Valid then some dt else none
      | _, _, _, _, _, _, _, _ => none
    else none
  | _ => none

def Date.fromisoformat (s : String) : Option Date :=
  fromisoChars s.data

/-! ## Python floats as exactly-represented binary64 rationals -/

/-- Round `a / b` to the nearest natural number, ties to even. -/
def rdiv (a b : Nat) : Nat :=
  let q := a / b
  let r := a % b
  if 2 * r < b then q
  else if b < 2 * r then q + 1
  else if q % 2 = 0 then q else q + 1

/-- Fuelled binary logarithm (floor), structural so the kernel can
evaluate it. -/
def log2f : Nat → Nat → Nat
  | 0, _ => 0
  | f + 1, n => if 2 ≤ n then log2f f (n / 2) + 1 else 0

def nlog2 (n : Nat) : Nat := log2f n n

/-- Floor of the binary logarithm of a nonzero rational. -/
def qlog2 (q : ℚ) : Int :=
  let n := q.num.natAbs
  let d := q.den
  if d * 2 ^ nlog2 n ≤ n * 2 ^ nlog2 d then (nlog2 n : Int) - (nlog2 d : Int)
  else (nlog2 n : Int) - (nlog2 d : Int) - 1

/-- Round a rational to 53 significant binary digits, round to nearest,
ties to even: the value a Python `float` (IEEE-754 binary64) takes,
with the exponent left unbounded.  Built from `mkRat` and machine
integer operations so the kernel can evaluate it. -/
def roundRat (q : ℚ) : ℚ :=
  if q.num = 0 then 0
  else
    let n := q.num.natAbs
    let d := q.den
    let k : Int := 52 - qlog2 q
    let m : Nat := if 0 ≤ k then rdiv (n * 2 ^ k.toNat) d else rdiv n (d * 2 ^ (-k).toNat)
    let sm : Int := if q.num < 0 then -(m : Int) else m
    if 0 ≤ k then mkRat sm (2 ^ k.toNat) else mkRat (sm * 2 ^ (-k).toNat) 1

/-- The exact rational sum of two rationals, written with `mkRat` so it
evaluates in the kernel; equal to `x + y` by `qadd_eq_add`. -/
def qadd (x y : ℚ) : ℚ := mkRat (x.num * y.den + y.num * x.den) (x.den * y.den)

/-- The exact rational difference, written with `mkRat`; equal to
`x - y` by `qsub_eq_sub`. -/
def qsub (x y : ℚ) : ℚ := mkRat (x.num * y.den - y.num * x.den) (x.den * y.den)

theorem qadd_eq_add (x y : ℚ) : qadd x y = x + y := (Rat.add_def' x y).symm

theorem qsub_eq_sub (x y : ℚ) : qsub x y = x - y := (Rat.sub_def' x y).symm

/-- Python float addition: exact sum, then binary64 rounding. -/
def fadd (x y : ℚ) : ℚ := roundRat (qadd x y)

/-- Python float subtraction: exact difference, then binary64 rounding. -/
def fsub (x y : ℚ) : ℚ := roundRat (qsub x y)

theorem fadd_eq (x y : ℚ) : fadd x y = roundRat (x + y) := by
  rw [fadd, qadd_eq_add]

theorem fsub_eq (x y : ℚ) : fsub x y = roundRat (x - y) := by
  rw [fsub, qsub_eq_sub]

/-- Python `sum(...)`: left fold of `+` starting from `0`. -/
def fsum (l : List ℚ) : ℚ := l.foldl fadd 0

/-! ## JSON-ish dynamic values and the record dict -/

/-- A JSON value as held in the persisted dict.  Only the shapes the
program can encounter are needed. -/
inductive JValue where
  | null : JValue
  | str (s : String) : JValue
  | num (q : ℚ) : JValue
  | boolean (b : Bool) : JValue
deriving DecidableEq

/-- The structured (dict) form of one record: the five keys
`to_dict` writes and `from_dict` reads, each possibly absent. -/
structure RecordDict where
  date : Option JValue
  description : Option JValue
  amount : Option JValue
  due_date : Option JValue
  record_type : Option JValue
deriving DecidableEq

/-! ## `FinancialRecord` -/

/-- One financial record with the field types the program's own
construction paths produce.  `record_type` stays a plain string
because the code never restricts it to the two tags. -/
structure FinancialRecord where
  date : Date
  description : String
  amount : ℚ
  due_date : Option String
  record_type : String
deriving DecidableEq

/-- `FinancialRecord.__init__`: stores every argument unchanged.  No
validation of any kind is performed (the Python body is five plain
assignments). -/
def FinancialRecord.init (date : Date) (description : String) (amount : ℚ)
    (due_date : Option String) (record_type : String) : FinancialRecord :=
  { date := date, description := description, amount := amount,
    due_date := due_date, record_type := record_type }

/-- `FinancialRecord.to_dict`. -/
def FinancialRecord.to_dict (r : FinancialRecord) : RecordDict :=
  { date := some (JValue.str r.date.isoformat),
    description := some (JValue.str r.description),
    amount := some (JValue.num r.amount),
    due_date := some (match r.due_date with
      | none => JValue.null
      | some s => JValue.str s),
    record_type := some (JValue.str r.record_type) }

/-- The dynamically typed record `from_dict` can build: only the date
is forced into a real `Date` (by `date.fromisoformat`); every other
field keeps whatever JSON value the dict held, because `__init__`
stores its arguments without inspection. -/
structure DynRecord where
  date : Date
  description : JValue
  amount : JValue
  due_date : JValue
  record_type : JValue
deriving DecidableEq

/-- `FinancialRecord.from_dict`: `data['date']` must be present, be a
string and parse as an ISO date (otherwise `KeyError` / `TypeError` /
`ValueError`); `data['description']` and `data['amount']` must merely
be present (`KeyError` otherwise) and are not type-checked;
`data.get('due_date')` defaults to `None` and
`data.get('record_type', 'expense')` defaults to `'expense'`.
`none` is any raised exception. -/
def from_dict (d : RecordDict) : Option DynRecord :=
  match d.date with
  | some (JValue.str s) =>
    match Date.fromisoformat s with
    | some dt =>
      match d.description, d.amount with
      | some desc, some amt =>
        some { date := dt, description := desc, amount := amt,
               due_date := d.due_date.getD JValue.null,
               record_type := d.record_type.getD (JValue.str "expense") }
      | _, _ => none
    | none => none
  | _ => none

/-- The dynamic view of a well-typed record; `from_dict ∘ to_dict`
lands exactly here when it round-trips. -/
def FinancialRecord.toDyn (r : FinancialRecord) : DynRecord :=
  { date := r.date,
    description := JValue.str r.description,
    amount := JValue.num r.amount,
    due_date := match r.due_date with
      | none => JValue.null
      | some s => JValue.str s,
    record_type := JValue.str r.record_type }

/-! ## `FinanceTracker` -/

structure FinanceTracker where
  plans : List FinancialRecord
  trash_bin : List FinancialRecord
  data_file : String
deriving DecidableEq

/-- `FinanceTracker.add_record` (in-memory effect): append to
`plans`; `save_data` is then called, which does not touch the
in-memory lists. -/
def add_record (t : FinanceTracker) (r : FinancialRecord) : FinanceTracker :=
  { t with plans := t.plans ++ [r] }

/-- Python `str.strip` over the character list. -/
def stripChars (l : List Char) : List Char :=
  ((l.dropWhile Char.isWhitespace).reverse.dropWhile Char.isWhitespace).reverse

def pyStrip (s : String) : String := String.mk (stripChars s.data)

/-- Python `str.lower` (ASCII range, as used on the menu inputs). -/
def pyLower (s : String) : String := String.mk (s.data.map Char.toLower)

/-- The record-type prompt loop of `add_plan_interactive`: keep asking
until the stripped, lowered input is `plan` or `allowance`; map them
to the stored tags. -/
def acceptType : List String → Option String
  | [] => none
  | s :: rest =>
    let s' := pyLower (pyStrip s)
    if s' = "plan" then some "expense"
    else if s' = "allowance" then some "income"
    else acceptType rest

/-- A value `float(input())` can produce: besides decimal numerals
(finite binary64 values, represented exactly as rationals), Python's
float constructor accepts the strings `nan`, `inf` and `infinity`
(any case, optionally signed), so the parsed amount can be an
infinity or a NaN. -/
inductive PyFloat where
  | fin (q : ℚ) : PyFloat
  | inf : PyFloat
  | ninf : PyFloat
  | nan : PyFloat
deriving DecidableEq

/-- The Python comparison `amount <= 0` on a float: any comparison
with NaN is false; `-inf <= 0` is true, `inf <= 0` is false. -/
def PyFloat.leZero : PyFloat → Bool
  | .fin q => q ≤ 0
  | .inf => false
  | .ninf => true
  | .nan => false

/-- The Python comparison `amount > 0` on a float: false for NaN. -/
def PyFloat.gtZero : PyFloat → Bool
  | .fin q => 0 < q
  | .inf => true
  | .ninf => false
  | .nan => false

/-- The amount prompt loop: keep asking while `amount <= 0` is true;
the first parsed float for which that comparison is false (any
positive number, `inf`, but also `nan`) is accepted. -/
def acceptAmount : List PyFloat → Option PyFloat
  | [] => none
  | a :: rest => if a.leZero then acceptAmount rest else some a

/-- The record as the interactive flow builds it: the amount is kept
as the full parsed float, because `__init__` stores the value of
`float(input())` unchanged, NaN and infinities included.  (The
ledger-level claims quantify over records with finite amounts, the
`FinancialRecord` type above.) -/
structure FinancialRecordF where
  date : Date
  description : String
  amount : PyFloat
  due_date : Option String
  record_type : String
deriving DecidableEq

/-- `FinanceTracker.add_plan_interactive`, as a function of the
already-parsed console inputs: the candidate record-type strings, the
(already strptime-parsed) date, the raw description line, the
candidate parsed amounts, and the raw due-date line.  Returns the
record that `add_record` then appends and saves; `none` means the
method returned without adding (empty description) or a prompt loop
never got an accepted input. -/
def add_plan_interactive (typeInputs : List String)
    (date : Date) (rawDescription : String) (amountInputs : List PyFloat)
    (rawDue : String) : Option FinancialRecordF :=
  match acceptType typeInputs with
  | none => none
  | some rt =>
    if pyStrip rawDescription = "" then none
    else
      match acceptAmount amountInputs with
      | none => none
      | some amount =>
        some { date := date, description := pyStrip rawDescription, amount := amount,
               due_date := (if rt = "expense" then
                   (if pyStrip rawDue = "" then none else some (pyStrip rawDue))
                 else none),
               record_type := rt }

/-- The balance report triple, with the keys of the Python dict. -/
structure Balance where
  income : ℚ
  expenses : ℚ
  net_balance : ℚ
deriving DecidableEq

/-- `FinanceTracker.calculate_balance`: float sums over the active
list (`self.plans`) filtered by tag, and their float difference. -/
def calculate_balance (t : FinanceTracker) : FinanceTracker × Balance :=
  let total_income := fsum ((t.plans.filter (fun p => p.record_type == "income")).map
    (fun p => p.amount))
  let total_expenses := fsum ((t.plans.filter (fun p => p.record_type == "expense")).map
    (fun p => p.amount))
  (t, { income := total_income, expenses := total_expenses,
        net_balance := fsub total_income total_expenses })

/-- Python truthiness of the `Optional[str]` due-date field: `None`
and the empty string are falsy. -/
def truthyStr : Option String → Bool
  | none => false
  | some s => !(s == "")

def dueKey (r : FinancialRecord) : String := r.due_date.getD ""

def dueLe (x y : FinancialRecord) : Prop := dueKey x ≤ dueKey y

instance : DecidableRel dueLe := fun x y =>
  inferInstanceAs (Decidable (dueKey x ≤ dueKey y))

instance : IsTotal FinancialRecord dueLe :=
  ⟨fun x y => le_total (dueKey x) (dueKey y)⟩

instance : IsTrans FinancialRecord dueLe :=
  ⟨fun _ _ _ h1 h2 => le_trans h1 h2⟩

/-- `FinanceTracker.view_upcoming_due_dates`: filter the active list
to expense records with truthy due date, and print them sorted by due
date (Python `sorted` = stable ascending sort, embedded as insertion
sort, which produces the same list as any stable ascending sort). -/
def view_upcoming_due_dates (t : FinanceTracker) : FinanceTracker × List FinancialRecord :=
  let upcoming := t.plans.filter
    (fun p => p.record_type == "expense" && truthyStr p.due_date)
  (t, List.insertionSort dueLe upcoming)

/-- What one pass of `FinanceTracker.delete_plan` reports. -/
inductive DeleteOutcome where
  | noPlans : DeleteOutcome
  | cancelled : DeleteOutcome
  | deleted (r : FinancialRecord) : DeleteOutcome
  | invalidIndex : DeleteOutcome
deriving DecidableEq

/-- `FinanceTracker.delete_plan` for one entered integer `i`: with no
plans it returns at once; the method computes `index = i - 1`, treats
`-1` (input `0`) as cancellation, pops and trashes in range, and
prints the invalid-plan-number message (then re-prompts) otherwise. -/
def delete_plan (t : FinanceTracker) (i : Int) : FinanceTracker × DeleteOutcome :=
  if t.plans = [] then (t, DeleteOutcome.noPlans)
  else
    let index : Int := i - 1
    if index = -1 then (t, DeleteOutcome.cancelled)
    else if h : 0 ≤ index ∧ index < (t.plans.length : Int) then
      let r := t.plans.get ⟨index.toNat, by omega⟩
      ({ t with plans := t.plans.eraseIdx index.toNat,
                trash_bin := t.trash_bin ++ [r] },
       DeleteOutcome.deleted r)
    else (t, DeleteOutcome.invalidIndex)

/-- How a `save_data` call ends, seen by the caller. -/
inductive SaveOutcome where
  | ok : SaveOutcome
  | printedError : SaveOutcome
  | raised : SaveOutcome
deriving DecidableEq

/-- `FinanceTracker.save_data`: the whole body is inside
`try ... except Exception: print(...)`, so a failed write ends in the
printed message, never in an exception reaching the caller, and the
in-memory lists are untouched either way. -/
def save_data (t : FinanceTracker) (writable : Bool) : FinanceTracker × SaveOutcome :=
  let attempt : Except String Unit :=
    if writable then Except.ok () else Except.error "not writable"
  match attempt with
  | Except.ok _ => (t, SaveOutcome.ok)
  | Except.error _ => (t, SaveOutcome.printedError)

/-! ## Supporting lemmas -/

theorem parseDigit_digitChar : ∀ n < 10, parseDigit (digitChar n) = some n := by decide

theorem daysInMonth_le (y m : Nat) : daysInMonth y m ≤ 31 := by
  unfold daysInMonth
  split
  · split <;> omega
  · split <;> omega

theorem fromisoChars_pad (y m dd : Nat) (hy : y < 10000) (hm : m < 100) (hd : dd < 100) :
    fromisoChars (pad4 y ++ '-' :: (pad2 m ++ '-' :: pad2 dd)) =
      (if (⟨y, m, dd⟩ : Date).Valid then some ⟨y, m, dd⟩ else none) := by
  have e1 := parseDigit_digitChar (y / 1000 % 10) (by omega)
  have e2 := parseDigit_digitChar (y / 100 % 10) (by omega)
  have e3 := parseDigit_digitChar (y / 10 % 10) (by omega)
  have e4 := parseDigit_digitChar (y % 10) (by omega)
  have e5 := parseDigit_digitChar (m / 10 % 10) (by omega)
  have e6 := parseDigit_digitChar (m % 10) (by omega)
  have e7 := parseDigit_digitChar (dd / 10 % 10) (by omega)
  have e8 := parseDigit_digitChar (dd % 10) (by omega)
  have ey : y / 1000 % 10 * 1000 + y / 100 % 10 * 100 + y / 10 % 10 * 10 + y % 10 = y := by
    omega
  have em : m / 10 % 10 * 10 + m % 10 = m := by omega
  have ed : dd / 10 % 10 * 10 + dd % 10 = dd := by omega
  simp only [pad4, pad2, List.cons_append, List.nil_append, fromisoChars,
    e1, e2, e3, e4, e5, e6, e7, e8, ey, em, ed, if_pos, and_self]

theorem Date.fromiso_isoformat (d : Date) (h : d.Valid) :
    Date.fromisoformat d.isoformat = some d := by
  obtain ⟨y, m, dd⟩ := d
  simp only [Date.Valid] at h
  obtain ⟨h1, h2, h3, h4, h5, h6⟩ := h
  have hy : y < 10000 := by omega
  have hm : m < 100 := by omega
  have hd : dd < 100 := by
    have := daysInMonth_le y m
    omega
  show fromisoChars (pad4 y ++ '-' :: (pad2 m ++ '-' :: pad2 dd)) = some ⟨y, m, dd⟩
  rw [fromisoChars_pad y m dd hy hm hd]
  rw [if_pos ⟨h1, h2, h3, h4, h5, h6⟩]

theorem acceptAmount_not_leZero :
    ∀ (l : List PyFloat) (a : PyFloat), acceptAmount l = some a → a.leZero = false := by
  intro l
  induction l with
  | nil => intro a h; simp [acceptAmount] at h
  | cons x xs ih =>
    intro a h
    unfold acceptAmount at h
    by_cases hx : x.leZero = true
    · rw [if_pos hx] at h
      exact ih a h
    · rw [if_neg hx] at h
      injection h with h'
      subst h'
      simpa using hx

theorem PyFloat.gtZero_of_not_leZero (a : PyFloat) (h : a.leZero = false) :
    a.gtZero = true ∨ a = PyFloat.nan := by
  cases a with
  | fin q =>
    left
    simp only [PyFloat.leZero, decide_eq_false_iff_not] at h
    simp only [PyFloat.gtZero, decide_eq_true_eq]
    exact lt_of_not_ge h
  | inf => left; rfl
  | ninf => simp [PyFloat.leZero] at h
  | nan => right; rfl

theorem orderedInsert_filter_key (s : String) (a : FinancialRecord)
    (l : List FinancialRecord) :
    (List.orderedInsert dueLe a l).filter (fun x => dueKey x == s) =
      if dueKey a == s then a :: l.filter (fun x => dueKey x == s)
      else l.filter (fun x => dueKey x == s) := by
  induction l with
  | nil =>
    by_cases hpa : (dueKey a == s) = true <;>
      simp [List.orderedInsert, List.filter_cons, hpa]
  | cons b l ih =>
    simp only [List.orderedInsert]
    by_cases hab : dueLe a b
    · rw [if_pos hab]
      by_cases hpa : (dueKey a == s) = true <;>
        simp [List.filter_cons, hpa]
    · rw [if_neg hab]
      rw [List.filter_cons, ih]
      by_cases hpa : (dueKey a == s) = true
      · by_cases hpb : (dueKey b == s) = true
        · exfalso
          apply hab
          show dueKey a ≤ dueKey b
          rw [beq_iff_eq] at hpa hpb
          rw [hpa, hpb]
        · simp [List.filter_cons, hpa, hpb]
      · simp [List.filter_cons, hpa]

theorem insertionSort_filter_key (s : String) (l : List FinancialRecord) :
    (List.insertionSort dueLe l).filter (fun x => dueKey x == s) =
      l.filter (fun x => dueKey x == s) := by
  induction l with
  | nil => rfl
  | cons a l ih =>
    simp only [List.insertionSort]
    rw [orderedInsert_filter_key, ih, List.filter_cons]

/-! ## Claim C1: record construction and validation -/

/-- C1, counterexample.  The claim says construction fails with
`ValidationError` for an empty description or a non-positive amount,
and that every constructed record has `amount > 0`.  But
`FinancialRecord.__init__` performs no validation: constructing with
an empty description and amount `-5` succeeds and stores both. -/
theorem init_no_validation_cex :
    (FinancialRecord.init ⟨2024, 1, 1⟩ "" (-5) none "expense").description = "" ∧
    (FinancialRecord.init ⟨2024, 1, 1⟩ "" (-5) none "expense").amount = -5 ∧
    ¬ 0 < (FinancialRecord.init ⟨2024, 1, 1⟩ "" (-5) none "expense").amount := by
  refine ⟨rfl, rfl, ?_⟩
  norm_num [FinancialRecord.init]

/-- C1, amended.  The constructor itself never fails and performs no
validation; the checks live in the interactive add flow, which
returns without adding when the stripped description is empty and
re-prompts while the parsed amount compares `<= 0`.  Every record it
adds therefore has a non-empty description and an amount for which
`amount <= 0` is false — strictly positive whenever the amount is a
number (or `inf`) — but `float(input())` also parses `nan`, and
since `nan <= 0` is false a NaN amount, which is not `> 0`, is
accepted and stored (second conjunct: a concrete NaN run). -/
theorem add_plan_interactive_validates
    (typeInputs : List String) (date : Date) (rawDescription : String)
    (amountInputs : List PyFloat) (rawDue : String) (r : FinancialRecordF)
    (h : add_plan_interactive typeInputs date rawDescription amountInputs rawDue =
      some r) :
    (r.description ≠ "" ∧ r.amount.leZero = false ∧
      (r.amount.gtZero = true ∨ r.amount = PyFloat.nan)) ∧
    add_plan_interactive ["plan"] ⟨2024, 1, 1⟩ "Rent" [PyFloat.nan] "" =
      some ⟨⟨2024, 1, 1⟩, "Rent", PyFloat.nan, none, "expense"⟩ := by
  refine ⟨?_, by decide⟩
  unfold add_plan_interactive at h
  split at h
  · simp at h
  · split at h
    · simp at h
    · rename_i hD
      split at h
      · simp at h
      · rename_i amount hA
        have hr := Option.some.inj h
        subst hr
        have hle := acceptAmount_not_leZero _ _ hA
        exact ⟨hD, hle, PyFloat.gtZero_of_not_leZero _ hle⟩

/-- C1 witness: the interactive flow run on the amount input `nan`
adds a record whose amount does not compare `<= 0`, yet is `> 0`
only in the degenerate sense of the right disjunct (it is NaN). -/
theorem add_plan_interactive_validates_witness :
    (("Rent" : String) ≠ "") ∧ PyFloat.nan.leZero = false ∧
      (PyFloat.nan.gtZero = true ∨ PyFloat.nan = PyFloat.nan) :=
  (add_plan_interactive_validates ["plan"] ⟨2024, 1, 1⟩ "Rent" [PyFloat.nan] ""
    ⟨⟨2024, 1, 1⟩, "Rent", PyFloat.nan, none, "expense"⟩ (by decide)).1

/-! ## Claim C7: due date on income records -/

/-- C7, counterexample.  The claim says `due_date` is silently
cleared when the kind is income, but `__init__` stores the argument
unchanged: an income record constructed with a due date keeps it. -/
theorem init_income_due_cex :
    (FinancialRecord.init ⟨2024, 1, 1⟩ "Salary" 5 (some "2024-01-05") "income").record_type
      = "income" ∧
    (FinancialRecord.init ⟨2024, 1, 1⟩ "Salary" 5 (some "2024-01-05") "income").due_date
      ≠ none := by
  exact ⟨rfl, by decide⟩

/-- C7, amended.  The constructor keeps whatever `due_date` it is
given, for any kind; it is the interactive add flow that never asks
for a due date on income records, so every income record added
through it has no due date. -/
theorem add_plan_interactive_income_no_due
    (typeInputs : List String) (date : Date) (rawDescription : String)
    (amountInputs : List PyFloat) (rawDue : String) (r : FinancialRecordF)
    (h : add_plan_interactive typeInputs date rawDescription amountInputs rawDue =
      some r)
    (hrt : r.record_type = "income") :
    r.due_date = none := by
  unfold add_plan_interactive at h
  split at h
  · simp at h
  · rename_i rt hT
    split at h
    · simp at h
    · split at h
      · simp at h
      · have hr := Option.some.inj h
        subst hr
        have hrt' : rt = "income" := hrt
        subst hrt'
        simp

/-- C7 witness: an allowance added interactively (with a nonempty
due-date line typed at the unreached prompt) has no due date. -/
theorem add_plan_interactive_income_no_due_witness :
    (⟨⟨2024, 1, 1⟩, "Salary", PyFloat.fin 5, none, "income"⟩ : FinancialRecordF).due_date
      = none :=
  add_plan_interactive_income_no_due ["allowance"] ⟨2024, 1, 1⟩ "Salary"
    [PyFloat.fin 5] "2024-01-05"
    ⟨⟨2024, 1, 1⟩, "Salary", PyFloat.fin 5, none, "income"⟩ (by decide) rfl

/-! ## Claim C9: save failures -/

/-- C9, counterexample.  The claim says a failed save surfaces a
`PersistenceError` to the caller.  The whole body of `save_data` is
wrapped in `try ... except Exception: print(...)`, so on an
unwritable target the method prints and returns normally: nothing is
raised to the caller. -/
theorem save_data_cex :
    (save_data ⟨[], [], "financial_data.json"⟩ false).2 = SaveOutcome.printedError ∧
    (save_data ⟨[], [], "financial_data.json"⟩ false).2 ≠ SaveOutcome.raised ∧
    (save_data ⟨[], [], "financial_data.json"⟩ false).1 = ⟨[], [], "financial_data.json"⟩ := by
  exact ⟨rfl, by decide, rfl⟩

/-- C9, amended.  When the write fails, `save_data` catches the
exception and prints an error message; no exception reaches the
caller, and the in-memory sequences are unchanged (they are unchanged
on success too). -/
theorem save_data_swallows (t : FinanceTracker) (writable : Bool) :
    (save_data t writable).1 = t ∧
    (save_data t writable).2 ≠ SaveOutcome.raised ∧
    (save_data t false).2 = SaveOutcome.printedError ∧
    (save_data t true).2 = SaveOutcome.ok := by
  cases writable <;> exact ⟨rfl, by simp [save_data], rfl, rfl⟩

/-! ## Claim C10: read-only operations -/

/-- C10.  `calculate_balance` and `view_upcoming_due_dates` do not
assign to `self.plans` or `self.trash_bin`; the tracker state after
either call is exactly the state before. -/
theorem readonly_ops_preserve_state (t : FinanceTracker) :
    (calculate_balance t).1 = t ∧ (view_upcoming_due_dates t).1 = t :=
  ⟨rfl, rfl⟩

/-! ## Claim C3: in-range delete moves the record -/

theorem delete_plan_in_range_eq (t : FinanceTracker) (i : Int)
    (h1 : 1 ≤ i) (h2 : i ≤ (t.plans.length : Int))
    (hlt : (i - 1).toNat < t.plans.length) :
    delete_plan t i =
      ({ plans := t.plans.eraseIdx (i - 1).toNat,
         trash_bin := t.trash_bin ++ [t.plans.get ⟨(i - 1).toNat, hlt⟩],
         data_file := t.data_file },
       DeleteOutcome.deleted (t.plans.get ⟨(i - 1).toNat, hlt⟩)) := by
  have hne : ¬ t.plans = [] := by
    intro he
    rw [he] at hlt
    simp at hlt
  rw [delete_plan, if_neg hne]
  have hc : ¬ (i - 1 = -1) := by omega
  rw [if_neg hc]
  rw [dif_pos (show 0 ≤ i - 1 ∧ i - 1 < (t.plans.length : Int) from ⟨by omega, by omega⟩)]

/-- C3.  For `1 ≤ i ≤ len(plans)`, one `delete_plan` pass pops the
1-based `i`-th active record, appends exactly that record (all fields
unchanged) to the end of the trash bin, and reports it as deleted;
the active list shrinks by one, the trash grows by one, and the
record's multiplicity moves from one list to the other. -/
theorem delete_plan_moves (t : FinanceTracker) (i : Int)
    (h1 : 1 ≤ i) (h2 : i ≤ (t.plans.length : Int)) :
    ∃ hlt : (i - 1).toNat < t.plans.length,
      delete_plan t i =
        ({ plans := t.plans.take (i - 1).toNat ++ t.plans.drop ((i - 1).toNat + 1),
           trash_bin := t.trash_bin ++ [t.plans.get ⟨(i - 1).toNat, hlt⟩],
           data_file := t.data_file },
         DeleteOutcome.deleted (t.plans.get ⟨(i - 1).toNat, hlt⟩)) ∧
      (delete_plan t i).1.plans.length + 1 = t.plans.length ∧
      (delete_plan t i).1.trash_bin.length = t.trash_bin.length + 1 ∧
      (delete_plan t i).1.plans.count (t.plans.get ⟨(i - 1).toNat, hlt⟩) + 1 =
        t.plans.count (t.plans.get ⟨(i - 1).toNat, hlt⟩) ∧
      (delete_plan t i).1.trash_bin.count (t.plans.get ⟨(i - 1).toNat, hlt⟩) =
        t.trash_bin.count (t.plans.get ⟨(i - 1).toNat, hlt⟩) + 1 := by
  have hlt : (i - 1).toNat < t.plans.length := by omega
  refine ⟨hlt, ?_, ?_, ?_, ?_, ?_⟩
  · rw [delete_plan_in_range_eq t i h1 h2 hlt, List.eraseIdx_eq_take_drop_succ]
  · rw [delete_plan_in_range_eq t i h1 h2 hlt]
    exact List.length_eraseIdx_add_one hlt
  · rw [delete_plan_in_range_eq t i h1 h2 hlt]
    simp
  · rw [delete_plan_in_range_eq t i h1 h2 hlt, List.eraseIdx_eq_take_drop_succ]
    set r := t.plans.get ⟨(i - 1).toNat, hlt⟩ with hr
    have hdrop : t.plans.drop ((i - 1).toNat) = r :: t.plans.drop ((i - 1).toNat + 1) := by
      rw [hr, List.drop_eq_getElem_cons hlt]
      simp [List.get_eq_getElem]
    have hsplit := (List.take_append_drop ((i - 1).toNat) t.plans).symm
    conv_rhs => rw [hsplit, hdrop]
    simp [List.count_append, List.count_cons_self]
    omega
  · rw [delete_plan_in_range_eq t i h1 h2 hlt]
    simp [List.count_append]

/-- C3 witness at a two-record tracker, deleting index 1. -/
theorem delete_plan_moves_witness :
    (delete_plan
      ⟨[⟨⟨2024, 1, 1⟩, "Rent", 5, some "2024-01-05", "expense"⟩,
        ⟨⟨2024, 1, 2⟩, "Salary", 7, none, "income"⟩], [], "financial_data.json"⟩ 1).2 =
      DeleteOutcome.deleted ⟨⟨2024, 1, 1⟩, "Rent", 5, some "2024-01-05", "expense"⟩ := by
  obtain ⟨hlt, heq, hrest⟩ := delete_plan_moves
    ⟨[⟨⟨2024, 1, 1⟩, "Rent", 5, some "2024-01-05", "expense"⟩,
      ⟨⟨2024, 1, 2⟩, "Salary", 7, none, "income"⟩], [], "financial_data.json"⟩ 1
    (by norm_num) (by norm_num)
  rw [heq]
  rfl

/-! ## Claim C4: out-of-range delete -/

/-- C4, counterexample.  The claim says every `i` outside
`[1, len(active)]` is reported as a `RangeError`; but the method
treats the out-of-range input `0` as cancellation (it prints
"Deletion cancelled" and returns), not as an invalid index. -/
theorem delete_plan_zero_cex :
    (delete_plan ⟨[⟨⟨2024, 1, 1⟩, "Rent", 5, none, "expense"⟩], [],
        "financial_data.json"⟩ 0).2 = DeleteOutcome.cancelled ∧
    (delete_plan ⟨[⟨⟨2024, 1, 1⟩, "Rent", 5, none, "expense"⟩], [],
        "financial_data.json"⟩ 0).2 ≠ DeleteOutcome.invalidIndex := by
  refine ⟨rfl, by decide⟩

/-- C4, amended.  For any `i` outside `[1, len(active)]` the state
(both sequences) is unchanged; the outcome is: an immediate return
when there are no plans (the method does not even prompt), a
cancellation for `i = 0`, and the invalid-plan-number (range error)
report, followed by a re-prompt, for every other out-of-range `i`. -/
theorem delete_plan_out_of_range (t : FinanceTracker) (i : Int)
    (h : i < 1 ∨ (t.plans.length : Int) < i) :
    (delete_plan t i).1 = t ∧
    (delete_plan t i).2 =
      (if t.plans = [] then DeleteOutcome.noPlans
       else if i = 0 then DeleteOutcome.cancelled
       else DeleteOutcome.invalidIndex) := by
  by_cases he : t.plans = []
  · rw [delete_plan, if_pos he, if_pos he]
    exact ⟨rfl, rfl⟩
  · rw [delete_plan, if_neg he, if_neg he]
    rcases h with h | h
    · by_cases h0 : i = 0
      · subst h0
        rw [if_pos (by norm_num), if_pos rfl]
        exact ⟨rfl, rfl⟩
      · rw [if_neg (show ¬ (i - 1 = -1) by omega), if_neg h0,
          dif_neg (show ¬ (0 ≤ i - 1 ∧ i - 1 < (t.plans.length : Int)) by omega)]
        exact ⟨rfl, rfl⟩
    · have h0 : ¬ i = 0 := by
        have : 0 < t.plans.length := List.length_pos.mpr he
        omega
      rw [if_neg (show ¬ (i - 1 = -1) by omega), if_neg h0,
        dif_neg (show ¬ (0 ≤ i - 1 ∧ i - 1 < (t.plans.length : Int)) by omega)]
      exact ⟨rfl, rfl⟩

/-- C4 witness at index 5 on a one-record tracker: state unchanged,
invalid-index report. -/
theorem delete_plan_out_of_range_witness :
    (delete_plan ⟨[⟨⟨2024, 1, 1⟩, "Rent", 5, none, "expense"⟩], [],
        "financial_data.json"⟩ 5).1 =
      ⟨[⟨⟨2024, 1, 1⟩, "Rent", 5, none, "expense"⟩], [], "financial_data.json"⟩ ∧
    (delete_plan ⟨[⟨⟨2024, 1, 1⟩, "Rent", 5, none, "expense"⟩], [],
        "financial_data.json"⟩ 5).2 = DeleteOutcome.invalidIndex := by
  have h := delete_plan_out_of_range
    ⟨[⟨⟨2024, 1, 1⟩, "Rent", 5, none, "expense"⟩], [], "financial_data.json"⟩ 5
    (Or.inr (by norm_num))
  refine ⟨h.1, ?_⟩
  rw [h.2]
  rfl

/-! ## Claim C2: balance totals -/

/-- Three allowances of `0.1` (each stored as the binary64 value the
float literal `0.1` denotes). -/
def driftTracker : FinanceTracker :=
  { plans := [⟨⟨2024, 1, 1⟩, "a", roundRat (mkRat 1 10), none, "income"⟩,
              ⟨⟨2024, 1, 2⟩, "b", roundRat (mkRat 1 10), none, "income"⟩,
              ⟨⟨2024, 1, 3⟩, "c", roundRat (mkRat 1 10), none, "income"⟩],
    trash_bin := [], data_file := "financial_data.json" }

/-- C2, counterexample.  The claim says sums are decimal-safe, e.g.
three incomes of 0.10 total exactly 0.30.  The code sums Python
floats: the total is the binary64 value 0.30000000000000004
(= 1351079888211149/2^52), which is neither 3/10 nor the exact
rational sum of the three stored amounts. -/
theorem calculate_balance_drift_cex :
    ((calculate_balance driftTracker).2).income =
      mkRat 1351079888211149 4503599627370496 ∧
    ((calculate_balance driftTracker).2).income ≠ mkRat 3 10 ∧
    ((calculate_balance driftTracker).2).income ≠
      qadd (qadd (roundRat (mkRat 1 10)) (roundRat (mkRat 1 10)))
        (roundRat (mkRat 1 10)) := by
  refine ⟨by decide, by decide, by decide⟩

/-- C2, amended.  `calculate_balance` returns: income = the IEEE-754
binary64 left-fold sum (Python `sum`, starting from 0) of the amounts
of active records tagged income, expenses likewise for the expense
tag, and net = the binary64 difference of the two totals; the trash
bin is excluded (only `self.plans` is read).  The totals are float
sums, subject to binary64 rounding, not exact decimal sums. -/
theorem calculate_balance_spec (t : FinanceTracker) :
    ((calculate_balance t).2).income =
      fsum ((t.plans.filter (fun p => p.record_type == "income")).map (fun p => p.amount)) ∧
    ((calculate_balance t).2).expenses =
      fsum ((t.plans.filter (fun p => p.record_type == "expense")).map (fun p => p.amount)) ∧
    ((calculate_balance t).2).net_balance =
      fsub ((calculate_balance t).2).income ((calculate_balance t).2).expenses ∧
    (calculate_balance { plans := t.plans, trash_bin := [], data_file := t.data_file }).2 =
      (calculate_balance t).2 :=
  ⟨rfl, rfl, rfl, rfl⟩

/-! ## Claim C8: upcoming due dates -/

/-- C8, counterexample.  The claim says the result is exactly the
active expense records with a non-null due date.  The code filters by
Python truthiness (`if plan.due_date`): an expense record whose due
date is the empty string (loadable from a persisted file) is non-null
but is dropped. -/
theorem view_upcoming_cex :
    (view_upcoming_due_dates ⟨[⟨⟨2024, 1, 1⟩, "Rent", 5, some "", "expense"⟩], [],
        "financial_data.json"⟩).2 = [] ∧
    (⟨[⟨⟨2024, 1, 1⟩, "Rent", 5, some "", "expense"⟩], [],
        "financial_data.json"⟩ : FinanceTracker).plans.filter
      (fun p => p.record_type == "expense" && p.due_date != none) =
      [⟨⟨2024, 1, 1⟩, "Rent", 5, some "", "expense"⟩] := by
  refine ⟨by decide, by decide⟩

/-- C8, amended.  `view_upcoming_due_dates` lists exactly the active
records tagged expense whose due date is truthy (non-null and
non-empty), in ascending lexicographic due-date order, with
equal-due-date records kept in their original insertion order (the
per-key filter is preserved, which is stability). -/
theorem view_upcoming_spec (t : FinanceTracker) :
    List.Perm ((view_upcoming_due_dates t).2)
      (t.plans.filter (fun p => p.record_type == "expense" && truthyStr p.due_date)) ∧
    List.Sorted dueLe ((view_upcoming_due_dates t).2) ∧
    ∀ s : String,
      ((view_upcoming_due_dates t).2).filter (fun x => dueKey x == s) =
        (t.plans.filter (fun p => p.record_type == "expense" && truthyStr p.due_date)).filter
          (fun x => dueKey x == s) :=
  ⟨List.perm_insertionSort dueLe _, List.sorted_insertionSort dueLe _,
    fun s => insertionSort_filter_key s _⟩

/-! ## Claim C5: serialization round-trip -/

/-- C5.  For every valid record (real calendar date, non-empty
description, positive amount, either tag, any optional due date),
`from_dict (to_dict r)` succeeds and returns the record with all five
fields unchanged (`toDyn` is the dynamic view of the same fields). -/
theorem to_dict_from_dict_roundtrip (r : FinancialRecord)
    (hdate : r.date.Valid) (hdesc : r.description ≠ "") (hamt : 0 < r.amount)
    (hkind : r.record_type = "expense" ∨ r.record_type = "income") :
    from_dict r.to_dict = some r.toDyn := by
  have h := Date.fromiso_isoformat r.date hdate
  cases hdu : r.due_date with
  | none => simp [from_dict, FinancialRecord.to_dict, FinancialRecord.toDyn, h, hdu]
  | some s => simp [from_dict, FinancialRecord.to_dict, FinancialRecord.toDyn, h, hdu]

/-- C5 witness on a concrete expense record with a due date. -/
theorem to_dict_from_dict_roundtrip_witness :
    from_dict (FinancialRecord.to_dict
        ⟨⟨2024, 1, 5⟩, "Rent", 5, some "2024-01-10", "expense"⟩) =
      some (FinancialRecord.toDyn
        ⟨⟨2024, 1, 5⟩, "Rent", 5, some "2024-01-10", "expense"⟩) :=
  to_dict_from_dict_roundtrip ⟨⟨2024, 1, 5⟩, "Rent", 5, some "2024-01-10", "expense"⟩
    (by decide) (by decide) (by decide) (Or.inl rfl)

/-! ## Claim C6: deserialization failures -/

/-- C6, counterexample.  The claim says deserialization fails when
the amount is non-numeric or the kind tag is present but
unrecognized.  The code never inspects either value: a dict with the
string amount "abc" and the kind tag "banana" deserializes
successfully, both values stored as-is. -/
theorem from_dict_cex :
    from_dict ⟨some (JValue.str "2024-01-01"), some (JValue.str "x"),
        some (JValue.str "abc"), none, some (JValue.str "banana")⟩ =
      some ⟨⟨2024, 1, 1⟩, JValue.str "x", JValue.str "abc", JValue.null,
        JValue.str "banana"⟩ := by
  decide

/-- C6, amended.  `from_dict` fails exactly when the date key is
missing, is not a string, or does not parse as a valid ISO date, or
when the description or amount key is missing.  Amount and kind
values are never type-checked: whatever JSON value is present is
stored unchanged; an absent kind defaults to the expense tag and an
absent due date to null. -/
theorem from_dict_spec (d : RecordDict) :
    ((from_dict d).isSome ↔
      ((∃ s dt, d.date = some (JValue.str s) ∧ Date.fromisoformat s = some dt) ∧
       d.description.isSome ∧ d.amount.isSome)) ∧
    (∀ r, from_dict d = some r →
      d.description = some r.description ∧ d.amount = some r.amount ∧
      r.due_date = d.due_date.getD JValue.null ∧
      r.record_type = d.record_type.getD (JValue.str "expense")) := by
  obtain ⟨dd, de, da, du, dr⟩ := d
  constructor
  · cases dd with
    | none => simp [from_dict]
    | some v =>
      cases v with
      | null => simp [from_dict]
      | str s =>
        cases hp : Date.fromisoformat s with
        | none => simp [from_dict, hp]
        | some dt =>
          cases de with
          | none => simp [from_dict, hp]
          | some desc =>
            cases da with
            | none => simp [from_dict, hp]
            | some amt => simp [from_dict, hp]
      | num q => simp [from_dict]
      | boolean b => simp [from_dict]
  · intro r hr
    cases dd with
    | none => simp [from_dict] at hr
    | some v =>
      cases v with
      | null => simp [from_dict] at hr
      | str s =>
        cases hp : Date.fromisoformat s with
        | none => simp [from_dict, hp] at hr
        | some dt =>
          cases de with
          | none => simp [from_dict, hp] at hr
          | some desc =>
            cases da with
            | none => simp [from_dict, hp] at hr
            | some amt =>
              simp only [from_dict, hp, Option.some.injEq] at hr
              subst hr
              exact ⟨rfl, rfl, rfl, rfl⟩
      | num q => simp [from_dict] at hr
      | boolean b => simp [from_dict] at hr

/-- C6 witness: a dict with no kind tag deserializes with the kind
defaulted to the expense tag. -/
theorem from_dict_spec_witness :
    (⟨⟨2024, 1, 1⟩, JValue.str "x", JValue.num 5, JValue.null,
      JValue.str "expense"⟩ : DynRecord).record_type = JValue.str "expense" := by
  have h := (from_dict_spec ⟨some (JValue.str "2024-01-01"), some (JValue.str "x"),
      some (JValue.num 5), none, none⟩).2
    ⟨⟨2024, 1, 1⟩, JValue.str "x", JValue.num 5, JValue.null, JValue.str "expense"⟩
    (by decide)
  exact h.2.2.2
